import Mathlib

/-!
# Verification of the VPN gateway manager

A shallow embedding of `src/main.py` (class `GatewayManager`): the device
registry, the profile reconciliation logic (`apply_profile`), the boot-time
restore (`init_all_devices`), the bootstrap sequence (`prepare_system`,
`_setup_nat`), and the `__main__` CLI dispatch.  Privileged system commands
are modelled as the argv lists handed to `_execute`; host routing/firewall
state is modelled explicitly so that idempotence of the issued command
sequences can be stated.
-/

namespace Gateway

/-- A registry record: `{"name": ..., "profile": ...}` in `devices.json`. -/
structure Device where
  name : String
  profile : String
deriving DecidableEq, Repr

/-- The manager's state: the in-memory registry (`self.devices`, a Python
dict modelled as an insertion-ordered association list), the persisted
registry file contents, and the two configuration values
`self.vpn_table` and `self.local_net`. -/
structure GwState where
  devices : List (String × Device)
  file : List (String × Device)
  vpn_table : String
  local_net : String
deriving DecidableEq, Repr

/-- A privileged command: the argv list passed to `self._execute`. -/
abbrev Cmd := List String

/-- `ip in self.devices` on the registry dict. -/
def containsIp (ds : List (String × Device)) (ip : String) : Bool :=
  ds.any (fun e => e.1 = ip)

/-- Python dict lookup `self.devices[ip]` (first binding wins; keys are
unique in a dict, and the embedding keeps them unique). -/
def lookupIp (ds : List (String × Device)) (ip : String) : Option Device :=
  match ds with
  | [] => none
  | e :: rest => if e.1 = ip then some e.2 else lookupIp rest ip

/-- `self.devices[ip]["profile"] = profile`: overwrite the profile field of
the record stored under `ip`. -/
def setProfile (ds : List (String × Device)) (ip p : String) :
    List (String × Device) :=
  ds.map (fun e => if e.1 = ip then (e.1, { e.2 with profile := p }) else e)

/-- `name if name else ip`: Python truthiness on the optional name (both
`None` and the empty string fall back to the ip). -/
def pyName (ip : String) : Option String → String
  | some n => if n = "" then ip else n
  | none => ip

/-- The two unconditional tear-down commands issued at the top of
`apply_profile` (lines 189-190 of `main.py`). -/
def teardownCmds (st : GwState) (ip : String) : List Cmd :=
  [["sudo", "ip", "rule", "del", "from", ip, "table", st.vpn_table],
   ["sudo", "iptables", "-D", "FORWARD", "-s", ip, "-d", st.local_net, "-j", "DROP"]]

/-- The profile-specific install commands (lines 193-197 of `main.py`):
`"VPN"` installs the routing-policy rule, `"Sicher"` installs it and
inserts the forwarding DROP rule at the head of the chain (`-I`), any
other profile string installs nothing. -/
def installCmds (st : GwState) (profile ip : String) : List Cmd :=
  if profile = "VPN" then
    [["sudo", "ip", "rule", "add", "from", ip, "table", st.vpn_table]]
  else if profile = "Sicher" then
    [["sudo", "ip", "rule", "add", "from", ip, "table", st.vpn_table],
     ["sudo", "iptables", "-I", "FORWARD", "-s", ip, "-d", st.local_net, "-j", "DROP"]]
  else []

/-- Result of one `apply_profile` call: the new manager state, the argv
lists issued to `_execute` in order, and whether the final status log
(line 203, `self.devices[ip]['name']`) raises a `KeyError` because `ip`
is not a key of the registry. -/
structure ApplyResult where
  st : GwState
  cmds : List Cmd
  raisedKeyError : Bool
deriving DecidableEq, Repr

/-- `GatewayManager.apply_profile(ip, profile, name, update_json)`
(lines 169-203 of `main.py`).

* If `ip` is unseen and `update_json` is true, a new record
  `{"name": name if name else ip, "profile": profile}` is inserted.
* Else if `update_json` is true, the stored record's profile field is
  overwritten with `profile` (the source's `"Normal"` branch and its
  `else` branch perform the same assignment and differ only in the log
  message).
* The two tear-down commands are always issued, then the
  profile-specific install commands.
* If `update_json`, `_save_device_config` rewrites the registry file.
* The final log line indexes `self.devices[ip]`, which raises `KeyError`
  when `ip` is still absent (possible only when `update_json` is false). -/
def apply_profile (st : GwState) (ip profile : String) (name : Option String)
    (update_json : Bool) : ApplyResult :=
  let devices :=
    if !containsIp st.devices ip && update_json then
      st.devices ++ [(ip, { name := pyName ip name, profile := profile })]
    else if update_json then
      setProfile st.devices ip profile
    else
      st.devices
  let file := if update_json then devices else st.file
  { st := { st with devices := devices, file := file },
    cmds := teardownCmds st ip ++ installCmds st profile ip,
    raisedKeyError := !containsIp devices ip }

/-- The loop body of `init_all_devices` (lines 205-210): iterate the
registry in order, re-applying each device's stored profile with
`update_json=False`, threading the manager state through and collecting
the issued commands. -/
def initLoop (st : GwState) : List (String × Device) → GwState × List Cmd
  | [] => (st, [])
  | (ip, d) :: rest =>
    let r := apply_profile st ip d.profile (some d.name) false
    let (st', cs) := initLoop r.st rest
    (st', r.cmds ++ cs)

/-- `GatewayManager.init_all_devices` (lines 205-210 of `main.py`). -/
def init_all_devices (st : GwState) : GwState × List Cmd :=
  initLoop st st.devices

/-! ## Bootstrap: `prepare_system`, `_ensure_ip_forwarding`, `_setup_nat` -/

/-- Python truthiness of `_get_vpn_interface`'s result (`if found_iface:`):
`None` and the empty string are falsy. -/
def pyTruthy : Option String → Bool
  | some s => s ≠ ""
  | none => false

/-- `sudo sysctl -w net.ipv4.ip_forward=1` (line 122). -/
def forwardingCmd : Cmd := ["sudo", "sysctl", "-w", "net.ipv4.ip_forward=1"]

/-- `iptables -t nat -C POSTROUTING -o <iface> -j MASQUERADE` (line 136). -/
def natCheckCmd (iface : String) : Cmd :=
  ["sudo", "iptables", "-t", "nat", "-C", "POSTROUTING", "-o", iface, "-j", "MASQUERADE"]

/-- `iptables -t nat -A POSTROUTING -o <iface> -j MASQUERADE` (line 138). -/
def natAddCmd (iface : String) : Cmd :=
  ["sudo", "iptables", "-t", "nat", "-A", "POSTROUTING", "-o", iface, "-j", "MASQUERADE"]

/-- The outcome of running the check command: `some rc` is a completed
process with exit code `rc` (a `CompletedProcess` object is always truthy),
`none` is the `None` that `_execute` returns when `subprocess.run` itself
raised.  The condition on line 147, `check_result and
check_result.returncode != 0`, holds exactly when the check completed
with a non-zero exit code, i.e. reported the rule absent. -/
def natRuleAbsent : Option Int → Bool
  | some rc => rc ≠ 0
  | none => false

/-- `GatewayManager._setup_nat` (lines 133-152, non-dry-run path): issue
the check command, then the add command only under the line-147 condition.
Returns the argv lists issued to `_execute`, in order. -/
def setup_nat (iface : String) (checkRes : Option Int) : List Cmd :=
  natCheckCmd iface ::
    (if natRuleAbsent checkRes then [natAddCmd iface] else [])

/-- The `for attempt in range(15)` loop of `prepare_system` (lines 41-48):
`locator attempt` is the value `_get_vpn_interface()` returns on that
attempt.  Returns the first truthy result (the value bound to
`self.vpn_iface`) and the number of `time.sleep(3)` calls executed
(one after every failed attempt, including the last). -/
def findIfaceLoop (locator : Nat → Option String) :
    Nat → Nat → Option String × Nat
  | _, 0 => (none, 0)
  | attempt, r + 1 =>
    let f := locator attempt
    if pyTruthy f then (f, 0)
    else
      let (res, s) := findIfaceLoop locator (attempt + 1) r
      (res, s + 1)

/-- Result of one `prepare_system` run. -/
structure BootResult where
  /-- the `self.vpn_iface` attribute, `none` when it was never assigned -/
  vpn_iface : Option String
  /-- number of `time.sleep(3)` calls -/
  sleeps : Nat
  /-- whether line 50 (`if not self.vpn_iface:`) raised `AttributeError`
  because the attribute was never assigned in the loop -/
  raisedAttrError : Bool
  /-- whether `logger.critical(...)` on line 51 executed -/
  criticalLogged : Bool
  /-- the privileged commands issued -/
  cmds : List Cmd
deriving DecidableEq, Repr

/-- `GatewayManager.prepare_system` (lines 36-56, non-dry-run):
poll `_get_vpn_interface` up to 15 times with `time.sleep(3)` after each
failed attempt.  On success, enable IP forwarding and run `_setup_nat`.
On exhaustion, line 50 reads `self.vpn_iface`, an attribute that no code
path has assigned, so Python raises `AttributeError` there — before the
`logger.critical` call on line 51 and the `return` on line 52. -/
def prepare_system (locator : Nat → Option String) (natCheckRes : Option Int) :
    BootResult :=
  match findIfaceLoop locator 0 15 with
  | (some iface, sleeps) =>
    { vpn_iface := some iface, sleeps := sleeps, raisedAttrError := false,
      criticalLogged := false,
      cmds := forwardingCmd :: setup_nat iface natCheckRes }
  | (none, sleeps) =>
    { vpn_iface := none, sleeps := sleeps, raisedAttrError := true,
      criticalLogged := false, cmds := [] }

/-! ## CLI dispatch (`__main__`, lines 212-255) -/

/-- The default value of `apply_profile`'s `update_json` parameter.  The
signature on line 169 declares `update_json: bool` with **no** default, so
there is none. -/
def updateJsonDefault : Option Bool := none

/-- What a `__main__` invocation does after constructing the manager. -/
inductive CliOutcome where
  /-- `--all`: full-registry restore -/
  | restoredAll (st : GwState) (cmds : List Cmd)
  /-- no arguments: interactive prompt -/
  | interactive
  /-- a three-argument `apply_profile` call completed (only possible if
  `update_json` had a default value) -/
  | applied (res : ApplyResult)
  /-- the three-argument `apply_profile` call raised
  `TypeError: missing required positional argument` -/
  | typeErrorMissingArg (ip profile name : String)
  /-- the usage text was printed, nothing applied -/
  | usage
deriving DecidableEq, Repr

/-- The `__main__` dispatch (lines 216-255): `sys.argv` includes the
script name at index 0.  The branches, in source order:
`len == 2 and argv[1] == "--all"`; `len == 1` (interactive); `len == 4`
(ip, profile, name — the call `manager.apply_profile(ip_arg, profile_arg,
name_arg)` on line 250 passes three arguments to a method whose fourth
parameter `update_json` has no default, which Python rejects with a
`TypeError` before the method body runs); anything else prints usage. -/
def main_dispatch (st : GwState) (argv : List String) : CliOutcome :=
  if argv.length = 2 && argv.getD 1 "" = "--all" then
    let (st', cs) := init_all_devices st
    .restoredAll st' cs
  else if argv.length = 1 then
    .interactive
  else
    match argv with
    | [_, ip, profile, name] =>
      match updateJsonDefault with
      | some uj => .applied (apply_profile st ip profile (some name) uj)
      | none => .typeErrorMissingArg ip profile name
    | _ => .usage

/-! ## Host rule state and command semantics

The kernel state the issued commands act on: the list of routing-policy
rules `(from, table)` in priority order, and the `FORWARD` chain's DROP
rules `(src, dst)` in chain order.  `ip rule del` and `iptables -D`
remove the **first** matching rule only; `ip rule add` adds one rule;
`iptables -I` inserts at the head of the chain; `iptables -A` appends. -/

/-- Routing rules and `FORWARD` chain entries, as source/destination
string pairs. -/
structure HostState where
  ipRules : List (String × String)
  fwd : List (String × String)
deriving DecidableEq, Repr

/-- Remove the first occurrence of `a` (the one-rule-per-invocation
semantics of `ip rule del` and `iptables -D`). -/
def removeFirst (a : String × String) : List (String × String) → List (String × String)
  | [] => []
  | b :: l => if b = a then l else b :: removeFirst a l

/-- How the host state reacts to one issued command.  Commands that do not
touch routing rules or the `FORWARD` chain leave the state unchanged. -/
def execCmd (s : HostState) (c : Cmd) : HostState :=
  match c with
  | ["sudo", "ip", "rule", "del", "from", ip, "table", t] =>
    { s with ipRules := removeFirst (ip, t) s.ipRules }
  | ["sudo", "ip", "rule", "add", "from", ip, "table", t] =>
    { s with ipRules := s.ipRules ++ [(ip, t)] }
  | ["sudo", "iptables", "-D", "FORWARD", "-s", ip, "-d", net, "-j", "DROP"] =>
    { s with fwd := removeFirst (ip, net) s.fwd }
  | ["sudo", "iptables", "-I", "FORWARD", "-s", ip, "-d", net, "-j", "DROP"] =>
    { s with fwd := (ip, net) :: s.fwd }
  | _ => s

/-- Run a command sequence on the host state. -/
def runCmds (h : HostState) (cs : List Cmd) : HostState :=
  cs.foldl execCmd h

/-- The effect on the host of one `apply_profile(ip, profile, ...)` call:
run exactly the commands it issues. -/
def applyOnHost (st : GwState) (h : HostState) (ip profile : String) : HostState :=
  runCmds h (apply_profile st ip profile none false).cmds

/-- Number of occurrences of a rule in a rule list. -/
def countOcc (a : String × String) : List (String × String) → Nat
  | [] => 0
  | b :: l => (if b = a then 1 else 0) + countOcc a l

/-! ## NAT table model (for check-then-act idempotence) -/

/-- The nat `POSTROUTING` masquerade rules, as the list of output
interfaces carrying a MASQUERADE rule. -/
def natExec (tbl : List String) (c : Cmd) : List String :=
  match c with
  | ["sudo", "iptables", "-t", "nat", "-A", "POSTROUTING", "-o", iface, "-j", "MASQUERADE"] =>
    tbl ++ [iface]
  | _ => tbl

/-- Exit code of `iptables -t nat -C`: 0 when the rule exists, 1 when it
does not. -/
def natCheckRc (tbl : List String) (iface : String) : Int :=
  if iface ∈ tbl then 0 else 1

/-- One bootstrap NAT setup against a host whose masquerade table is
`tbl`: the check command's exit code is determined by the table, and the
issued commands are folded into the table. -/
def runSetupNat (tbl : List String) (iface : String) : List String :=
  (setup_nat iface (some (natCheckRc tbl iface))).foldl natExec tbl

/-! ## Helper lemmas -/

theorem countOcc_removeFirst (a : String × String) (l : List (String × String)) :
    countOcc a (removeFirst a l) = countOcc a l - 1 := by
  induction l with
  | nil => simp [removeFirst, countOcc]
  | cons b l ih =>
    by_cases hb : b = a
    · simp [removeFirst, countOcc, hb]
    · simp [removeFirst, countOcc, hb, ih]

theorem removeFirst_of_countOcc_zero {a : String × String}
    {l : List (String × String)} (h : countOcc a l = 0) :
    removeFirst a l = l := by
  induction l with
  | nil => rfl
  | cons b l ih =>
    by_cases hb : b = a
    · simp [countOcc, hb] at h
    · simp [countOcc, hb] at h
      simp [removeFirst, hb, ih h]

theorem removeFirst_append_self {a : String × String}
    {l : List (String × String)} (h : countOcc a l = 0) :
    removeFirst a (l ++ [a]) = l := by
  induction l with
  | nil => simp [removeFirst]
  | cons b l ih =>
    by_cases hb : b = a
    · simp [countOcc, hb] at h
    · simp [countOcc, hb] at h
      simp [removeFirst, hb, ih h]

theorem lookupIp_setProfile_of_contains {ds : List (String × Device)}
    {ip : String} (p : String) (h : containsIp ds ip = true) :
    ∃ d, lookupIp (setProfile ds ip p) ip = some d ∧ d.profile = p := by
  induction ds with
  | nil => simp [containsIp] at h
  | cons e ds ih =>
    by_cases he : e.1 = ip
    · exact ⟨{ e.2 with profile := p }, by simp [setProfile, lookupIp, he], rfl⟩
    · have h' : containsIp ds ip = true := by
        simpa [containsIp, he] using h
      obtain ⟨d, hd, hp⟩ := ih h'
      exact ⟨d, by simpa [setProfile, lookupIp, he] using hd, hp⟩

theorem lookupIp_append_of_not_contains {ds : List (String × Device)}
    {ip : String} (d : Device) (h : containsIp ds ip = false) :
    lookupIp (ds ++ [(ip, d)]) ip = some d := by
  induction ds with
  | nil => simp [lookupIp]
  | cons e ds ih =>
    obtain ⟨a, b⟩ := e
    simp only [containsIp] at h
    have he : ¬ a = ip := by
      have := h
      simp at this
      exact this.1
    have h' : containsIp ds ip = false := by
      simp [containsIp] at h ⊢
      exact h.2
    simp [lookupIp, he, ih h']

theorem removeFirst_cons_self (a : String × String) (l : List (String × String)) :
    removeFirst a (a :: l) = l := by
  simp [removeFirst]

theorem apply_readonly_st (st : GwState) (ip p : String) (nm : Option String) :
    (apply_profile st ip p nm false).st = st := by
  simp [apply_profile]

theorem apply_readonly_cmds (st : GwState) (ip p : String) (nm : Option String) :
    (apply_profile st ip p nm false).cmds =
      teardownCmds st ip ++ installCmds st p ip := rfl

theorem initLoop_eq (st : GwState) (l : List (String × Device)) :
    initLoop st l =
      (st, l.flatMap fun e => teardownCmds st e.1 ++ installCmds st e.2.profile e.1) := by
  induction l with
  | nil => simp [initLoop]
  | cons e l ih =>
    obtain ⟨ip, d⟩ := e
    simp [initLoop, apply_readonly_st, apply_readonly_cmds, ih]

theorem execCmd_ipRule_del (s : HostState) (ip t : String) :
    execCmd s ["sudo", "ip", "rule", "del", "from", ip, "table", t] =
      { s with ipRules := removeFirst (ip, t) s.ipRules } := rfl

theorem execCmd_ipRule_add (s : HostState) (ip t : String) :
    execCmd s ["sudo", "ip", "rule", "add", "from", ip, "table", t] =
      { s with ipRules := s.ipRules ++ [(ip, t)] } := rfl

theorem execCmd_fwd_del (s : HostState) (ip net : String) :
    execCmd s ["sudo", "iptables", "-D", "FORWARD", "-s", ip, "-d", net, "-j", "DROP"] =
      { s with fwd := removeFirst (ip, net) s.fwd } := rfl

theorem execCmd_fwd_ins (s : HostState) (ip net : String) :
    execCmd s ["sudo", "iptables", "-I", "FORWARD", "-s", ip, "-d", net, "-j", "DROP"] =
      { s with fwd := (ip, net) :: s.fwd } := rfl

theorem applyOnHost_eq (st : GwState) (h : HostState) (ip p : String) :
    applyOnHost st h ip p =
      if p = "VPN" then
        { ipRules := removeFirst (ip, st.vpn_table) h.ipRules ++ [(ip, st.vpn_table)],
          fwd := removeFirst (ip, st.local_net) h.fwd }
      else if p = "Sicher" then
        { ipRules := removeFirst (ip, st.vpn_table) h.ipRules ++ [(ip, st.vpn_table)],
          fwd := (ip, st.local_net) :: removeFirst (ip, st.local_net) h.fwd }
      else
        { ipRules := removeFirst (ip, st.vpn_table) h.ipRules,
          fwd := removeFirst (ip, st.local_net) h.fwd } := by
  by_cases h1 : p = "VPN" <;> by_cases h2 : p = "Sicher" <;>
    simp [applyOnHost, apply_readonly_cmds, teardownCmds, installCmds, runCmds, h1, h2,
      execCmd_ipRule_del, execCmd_ipRule_add, execCmd_fwd_del, execCmd_fwd_ins]

theorem runSetupNat_eq (tbl : List String) (iface : String) :
    runSetupNat tbl iface = if iface ∈ tbl then tbl else tbl ++ [iface] := by
  by_cases h : iface ∈ tbl <;>
    simp [runSetupNat, setup_nat, natRuleAbsent, natCheckRc, natCheckCmd, natAddCmd,
      natExec, h]

/-! ## Claim theorems -/

/-- C1: the claim says that when no VPN interface is found after all 15
polling attempts (3 time-units of sleep after each), the bootstrap logs a
critical message and returns without raising, skipping forwarding and NAT
setup.  Evaluating `prepare_system` at the failing input (a locator that
never finds an interface) shows what the code actually does: all 15
attempts run and sleep, no command is issued, but line 50 raises
`AttributeError` (`self.vpn_iface` was never assigned) **before** the
critical log executes, crashing `__init__` instead of returning. -/
theorem prepare_system_timeout_raises_attrError :
    ∀ natCheckRes : Option Int,
      prepare_system (fun _ => none) natCheckRes =
        { vpn_iface := none, sleeps := 15, raisedAttrError := true,
          criticalLogged := false, cmds := [] } := by
  intro natCheckRes
  rfl

/-- C2: applying the `Secure` profile (code string `"Sicher"`) with
`vpn_table="100"`, `local_net="192.168.178.0/24"`, `ip="10.0.0.5"` issues
exactly the two delete commands, then `ip rule add from 10.0.0.5 table
100`, then the `iptables -I` insert-at-head of the DROP rule, each
prefixed with `sudo` — for every registry, file state, name and
`update_json` flag. -/
theorem apply_secure_profile_cmds :
    ∀ (devices file : List (String × Device)) (nm : Option String) (uj : Bool),
      (apply_profile ⟨devices, file, "100", "192.168.178.0/24"⟩
          "10.0.0.5" "Sicher" nm uj).cmds =
        [["sudo", "ip", "rule", "del", "from", "10.0.0.5", "table", "100"],
         ["sudo", "iptables", "-D", "FORWARD", "-s", "10.0.0.5", "-d",
          "192.168.178.0/24", "-j", "DROP"],
         ["sudo", "ip", "rule", "add", "from", "10.0.0.5", "table", "100"],
         ["sudo", "iptables", "-I", "FORWARD", "-s", "10.0.0.5", "-d",
          "192.168.178.0/24", "-j", "DROP"]] := by
  intro devices file nm uj
  rfl

/-- C3: the claim says every `<ip> <profile> [<name>]` invocation performs
a single `apply(ip, profile, name, persist=true)` without raising.  In the
code, the three-positional-argument shape reaches
`manager.apply_profile(ip_arg, profile_arg, name_arg)` (line 250), a call
with three arguments to a method whose required fourth parameter
`update_json` has no default — Python raises `TypeError` and no apply
happens; the two-positional-argument shape (`len(sys.argv) == 3`) is not
matched by any branch and only prints the usage text; consequently no CLI
invocation ever completes an `apply_profile` call. -/
theorem cli_positional_invocation_never_applies :
    ∀ st : GwState,
      main_dispatch st ["script.py", "10.0.0.5", "VPN", "laptop"] =
          .typeErrorMissingArg "10.0.0.5" "VPN" "laptop" ∧
      main_dispatch st ["script.py", "10.0.0.5", "VPN"] = .usage ∧
      ∀ (argv : List String) (res : ApplyResult),
        main_dispatch st argv ≠ .applied res := by
  intro st
  refine ⟨rfl, rfl, ?_⟩
  intro argv res h
  rw [main_dispatch] at h
  split at h
  · exact CliOutcome.noConfusion h
  · split at h
    · exact CliOutcome.noConfusion h
    · exact CliOutcome.noConfusion h
  · intro head ip profile name heq
    subst heq
    exact CliOutcome.noConfusion h

/-- C4 counterexample: the claim says a `persist=false` apply on an
unregistered ip is a no-op (no commands issued) and is logged as an
error rather than raised.  On the empty registry with ip `10.0.0.7`,
the code issues the four tear-down/install commands anyway, and the
final status log raises `KeyError`. -/
theorem apply_unknown_readonly_not_noop :
    (apply_profile ⟨[], [], "100", "192.168.178.0/24"⟩
        "10.0.0.7" "VPN" none false).cmds ≠ [] ∧
    (apply_profile ⟨[], [], "100", "192.168.178.0/24"⟩
        "10.0.0.7" "VPN" none false).raisedKeyError = true := by
  decide

/-- C4 amended: a `persist=false` apply on an unregistered ip leaves the
registry and the registry file unchanged, but is not a no-op: the usual
tear-down and install commands are still issued, and the call raises
`KeyError` at the final status log instead of logging an error. -/
theorem apply_unknown_readonly_behavior (st : GwState) (ip p : String)
    (nm : Option String) (h : containsIp st.devices ip = false) :
    (apply_profile st ip p nm false).st = st ∧
    (apply_profile st ip p nm false).cmds =
      teardownCmds st ip ++ installCmds st p ip ∧
    (apply_profile st ip p nm false).raisedKeyError = true := by
  refine ⟨apply_readonly_st st ip p nm, rfl, ?_⟩
  simp [apply_profile, h]

/-- Witness for `apply_unknown_readonly_behavior` at the empty registry. -/
theorem apply_unknown_readonly_behavior_witness :
    (apply_profile ⟨[], [], "100", "192.168.178.0/24"⟩
        "10.0.0.7" "VPN" none false).raisedKeyError = true :=
  (apply_unknown_readonly_behavior ⟨[], [], "100", "192.168.178.0/24"⟩
    "10.0.0.7" "VPN" none rfl).2.2

/-- C5: for every state, ip, profile string (including unrecognized ones),
name and `update_json` flag, the command sequence issued by
`apply_profile` starts with exactly the delete of the routing-policy rule
for `ip` and the delete of the forwarding-block rule for `ip`, and every
command issued after those two is an install (an `ip rule add` or an
`iptables -I`). -/
theorem teardown_precedes_install :
    ∀ (st : GwState) (ip p : String) (nm : Option String) (uj : Bool),
      ((apply_profile st ip p nm uj).cmds).take 2 =
        [["sudo", "ip", "rule", "del", "from", ip, "table", st.vpn_table],
         ["sudo", "iptables", "-D", "FORWARD", "-s", ip, "-d", st.local_net,
          "-j", "DROP"]] ∧
      ∀ c ∈ ((apply_profile st ip p nm uj).cmds).drop 2,
        c.take 4 = ["sudo", "ip", "rule", "add"] ∨
        c.take 3 = ["sudo", "iptables", "-I"] := by
  intro st ip p nm uj
  refine ⟨rfl, ?_⟩
  intro c hc
  have hdrop : ((apply_profile st ip p nm uj).cmds).drop 2 = installCmds st p ip := rfl
  rw [hdrop] at hc
  by_cases h1 : p = "VPN"
  · simp [installCmds, h1] at hc
    subst hc
    left
    rfl
  · by_cases h2 : p = "Sicher"
    · simp [installCmds, h1, h2] at hc
      rcases hc with hc | hc <;> subst hc
      · left
        rfl
      · right
        rfl
    · simp [installCmds, h1, h2] at hc

/-- C6 counterexample: the claim quantifies over **every** starting
installed-rule state.  On a host that starts with the routing-policy rule
for `10.0.0.5` duplicated (two identical entries, as external
manipulation can produce), applying `("10.0.0.5", "Normal")` once leaves
one copy installed, while applying it twice removes both — the two final
rule sets differ even as sets, because `ip rule del` removes one matching
rule per invocation. -/
theorem apply_twice_differs_on_duplicated_rules :
    (("10.0.0.5", "100") ∈
      (applyOnHost ⟨[], [], "100", "192.168.178.0/24"⟩
        ⟨[("10.0.0.5", "100"), ("10.0.0.5", "100")], []⟩
        "10.0.0.5" "Normal").ipRules) ∧
    (("10.0.0.5", "100") ∉
      (applyOnHost ⟨[], [], "100", "192.168.178.0/24"⟩
        (applyOnHost ⟨[], [], "100", "192.168.178.0/24"⟩
          ⟨[("10.0.0.5", "100"), ("10.0.0.5", "100")], []⟩
          "10.0.0.5" "Normal")
        "10.0.0.5" "Normal").ipRules) := by
  decide

/-- C6 amended: applying the same `(ip, profile)` twice in succession
yields the same final installed-rule state as applying it once, for every
profile and every starting host state in which the managed routing-policy
rule and the managed forwarding-block rule for `ip` each occur at most
once — in particular for every state a previous apply produced.  (With
pre-existing duplicates the second apply's tear-down removes one more
copy, see the counterexample.) -/
theorem apply_twice_eq_apply_once_of_no_dup (st : GwState) (h : HostState)
    (ip p : String)
    (h1 : countOcc (ip, st.vpn_table) h.ipRules ≤ 1)
    (h2 : countOcc (ip, st.local_net) h.fwd ≤ 1) :
    applyOnHost st (applyOnHost st h ip p) ip p = applyOnHost st h ip p := by
  have c1 : countOcc (ip, st.vpn_table) (removeFirst (ip, st.vpn_table) h.ipRules) = 0 := by
    have := countOcc_removeFirst (ip, st.vpn_table) h.ipRules
    omega
  have c2 : countOcc (ip, st.local_net) (removeFirst (ip, st.local_net) h.fwd) = 0 := by
    have := countOcc_removeFirst (ip, st.local_net) h.fwd
    omega
  by_cases hp1 : p = "VPN"
  · simp [applyOnHost_eq, hp1, removeFirst_append_self c1,
      removeFirst_of_countOcc_zero c2]
  · by_cases hp2 : p = "Sicher"
    · simp [applyOnHost_eq, hp1, hp2, removeFirst_append_self c1,
        removeFirst_cons_self]
    · simp [applyOnHost_eq, hp1, hp2, removeFirst_of_countOcc_zero c1,
        removeFirst_of_countOcc_zero c2]

/-- Witness for `apply_twice_eq_apply_once_of_no_dup` on a host that has
one routing rule and one block rule for the ip. -/
theorem apply_twice_eq_apply_once_of_no_dup_witness :
    applyOnHost ⟨[], [], "100", "192.168.178.0/24"⟩
        (applyOnHost ⟨[], [], "100", "192.168.178.0/24"⟩
          ⟨[("10.0.0.5", "100")], [("10.0.0.5", "192.168.178.0/24")]⟩
          "10.0.0.5" "VPN")
        "10.0.0.5" "VPN" =
      applyOnHost ⟨[], [], "100", "192.168.178.0/24"⟩
        ⟨[("10.0.0.5", "100")], [("10.0.0.5", "192.168.178.0/24")]⟩
        "10.0.0.5" "VPN" :=
  apply_twice_eq_apply_once_of_no_dup _ _ _ _ (by decide) (by decide)

/-- C7: `_setup_nat` issues the masquerade check command first, issues the
add command exactly when the check completed with a non-zero exit code
(the rule is absent), and — modelling the nat table with the check's exit
code derived from it — running the bootstrap NAT setup twice leaves the
same table as running it once, so masquerade rules do not accumulate
across restarts. -/
theorem setup_nat_check_then_act :
    ∀ (iface : String) (checkRes : Option Int) (tbl : List String),
      (setup_nat iface checkRes).head? = some (natCheckCmd iface) ∧
      (natAddCmd iface ∈ setup_nat iface checkRes ↔ natRuleAbsent checkRes = true) ∧
      runSetupNat (runSetupNat tbl iface) iface = runSetupNat tbl iface := by
  intro iface checkRes tbl
  have hne : natAddCmd iface ≠ natCheckCmd iface := by
    intro hEq
    have h4 := congrArg (fun l => l.get? 4) hEq
    simp [natAddCmd, natCheckCmd] at h4
  refine ⟨rfl, ?_, ?_⟩
  · by_cases habs : natRuleAbsent checkRes = true <;>
      simp [setup_nat, habs, hne]
  · by_cases hm : iface ∈ tbl <;> simp [runSetupNat_eq, hm]

/-- C8: a persisted apply on an unseen ip appends exactly one new record
to the registry — named with the given name, or with the ip itself when
the name is omitted or empty (`name if name else ip`) — storing the
target profile, and persists the resulting registry to the file. -/
theorem apply_persist_inserts_new_device (st : GwState) (ip p : String)
    (nm : Option String) (h : containsIp st.devices ip = false) :
    (apply_profile st ip p nm true).st.devices =
      st.devices ++ [(ip, { name := pyName ip nm, profile := p })] ∧
    (apply_profile st ip p nm true).st.file =
      st.devices ++ [(ip, { name := pyName ip nm, profile := p })] := by
  constructor <;> simp [apply_profile, h]

/-- Witness for `apply_persist_inserts_new_device`: the C8 instance —
`apply("10.0.0.9", "VPN", "laptop", persist=true)` on the empty registry
yields exactly the singleton registry. -/
theorem apply_persist_inserts_new_device_witness :
    (apply_profile ⟨[], [], "100", "192.168.178.0/24"⟩ "10.0.0.9" "VPN"
        (some "laptop") true).st.devices =
      [("10.0.0.9", { name := "laptop", profile := "VPN" })] := by
  have h := apply_persist_inserts_new_device ⟨[], [], "100", "192.168.178.0/24"⟩
    "10.0.0.9" "VPN" (some "laptop") rfl
  simpa [pyName] using h.1

/-- C9: `init_all_devices` over any registry issues exactly the
tear-down-plus-install command sequence for each device's currently
stored profile, once per device in registry order, and leaves the whole
manager state — the in-memory registry and the registry file included —
unchanged (every call uses `update_json=False` and nothing is saved). -/
theorem init_all_devices_frame :
    ∀ st : GwState,
      (init_all_devices st).1 = st ∧
      (init_all_devices st).2 =
        st.devices.flatMap fun e =>
          teardownCmds st e.1 ++ installCmds st e.2.profile e.1 := by
  intro st
  rw [init_all_devices, initLoop_eq]
  exact ⟨rfl, rfl⟩

/-- C10: after `apply_profile(ip, p, name, update_json=True)` the registry
maps `ip` to a record whose profile field is exactly the string `p`,
stored verbatim, and the registry file equals the in-memory registry —
including profile strings outside the recognized set, for which the
install phase is empty, so a later restore re-applies them as
tear-down-only. -/
theorem apply_persist_stores_profile_verbatim (st : GwState) (ip p : String)
    (nm : Option String) :
    (∃ d, lookupIp (apply_profile st ip p nm true).st.devices ip = some d ∧
      d.profile = p) ∧
    (apply_profile st ip p nm true).st.file =
      (apply_profile st ip p nm true).st.devices ∧
    (p ≠ "VPN" → p ≠ "Sicher" → installCmds st p ip = []) := by
  refine ⟨?_, rfl, ?_⟩
  · by_cases hc : containsIp st.devices ip = true
    · obtain ⟨d, hd1, hd2⟩ := lookupIp_setProfile_of_contains p hc
      refine ⟨d, ?_, hd2⟩
      have hdev : (apply_profile st ip p nm true).st.devices =
          setProfile st.devices ip p := by
        simp [apply_profile, hc]
      rw [hdev]
      exact hd1
    · have hc' : containsIp st.devices ip = false := by
        cases hcc : containsIp st.devices ip
        · rfl
        · exact absurd hcc hc
      refine ⟨{ name := pyName ip nm, profile := p }, ?_, rfl⟩
      have hdev : (apply_profile st ip p nm true).st.devices =
          st.devices ++ [(ip, { name := pyName ip nm, profile := p })] := by
        simp [apply_profile, hc']
      rw [hdev]
      exact lookupIp_append_of_not_contains _ hc'
  · intro h1 h2
    simp [installCmds, h1, h2]

/-- Witness for `apply_persist_stores_profile_verbatim` at the
unrecognized profile string `"Gaming"`. -/
theorem apply_persist_stores_profile_verbatim_witness :
    lookupIp (apply_profile ⟨[], [], "100", "192.168.178.0/24"⟩ "10.0.0.11"
        "Gaming" none true).st.devices "10.0.0.11" =
      some { name := "10.0.0.11", profile := "Gaming" } ∧
    installCmds ⟨[], [], "100", "192.168.178.0/24"⟩ "Gaming" "10.0.0.11" = [] := by
  refine ⟨by decide, ?_⟩
  exact (apply_persist_stores_profile_verbatim ⟨[], [], "100", "192.168.178.0/24"⟩
    "10.0.0.11" "Gaming" none).2.2 (by decide) (by decide)

end Gateway
